import Mathlib

/-!
Verification development for the OmiOSINT search backend (src/app.py).

The Python source is shallowly embedded: each definition below mirrors a
function or a code region of app.py (line numbers cited in comments).
JSON values are modelled by the inductive `JVal`; fallible Python code
(attribute errors, index errors) is modelled in `Except String`; the
standard-library helpers that are not part of the repository
(datetime.fromisoformat, json.loads) are passed in as parameters.
-/

/-- A JSON value as handled by the Python code (ints only: the claims never
exercise float payloads). -/
inductive JVal where
  | str (s : String)
  | num (n : Int)
  | bool (b : Bool)
  | null
  | list (xs : List JVal)
  | obj (kvs : List (String × JVal))

/-- Python type name of a value, as produced by type(x).__name__. -/
def pyTypeName : JVal → String
  | .str _ => "str"
  | .num _ => "int"
  | .bool _ => "bool"
  | .null => "NoneType"
  | .list _ => "list"
  | .obj _ => "dict"

mutual

/-- Python repr() of a JSON-shaped value (used by str() for containers). -/
def pyRepr : JVal → String
  | .str s => "\x27" ++ s ++ "\x27"
  | .num n => toString n
  | .bool true => "True"
  | .bool false => "False"
  | .null => "None"
  | .list xs => "[" ++ pyReprSeq xs ++ "]"
  | .obj kvs => "\x7b" ++ pyReprPairs kvs ++ "\x7d"

/-- Comma-separated reprs of the elements of a list. -/
def pyReprSeq : List JVal → String
  | [] => ""
  | [x] => pyRepr x
  | x :: xs => pyRepr x ++ ", " ++ pyReprSeq xs

/-- Comma-separated key: value reprs of the entries of a dict. -/
def pyReprPairs : List (String × JVal) → String
  | [] => ""
  | [(k, v)] => "\x27" ++ k ++ "\x27: " ++ pyRepr v
  | (k, v) :: kvs => "\x27" ++ k ++ "\x27: " ++ pyRepr v ++ ", " ++ pyReprPairs kvs

end

/-- Python str() of a JSON-shaped value. -/
def pyStr : JVal → String
  | .str s => s
  | .num n => toString n
  | .bool true => "True"
  | .bool false => "False"
  | .null => "None"
  | .list xs => "[" ++ pyReprSeq xs ++ "]"
  | .obj kvs => "\x7b" ++ pyReprPairs kvs ++ "\x7d"

/-- Python str.lower() (ASCII range, which is all the code relies on). -/
def strLower (s : String) : String := ⟨s.data.map Char.toLower⟩

/-- Python str.upper() (ASCII range). -/
def strUpper (s : String) : String := ⟨s.data.map Char.toUpper⟩

/-- Python str.strip(): drop leading and trailing whitespace. -/
def pyStrip (s : String) : String :=
  ⟨((s.data.dropWhile Char.isWhitespace).reverse.dropWhile Char.isWhitespace).reverse⟩

/-- Python slicing s[:n]. -/
def pyTake (s : String) (n : Nat) : String := ⟨s.data.take n⟩

/-- Python str.startswith. -/
def pyStartsWith (s pre : String) : Bool := pre.data.isPrefixOf s.data

/-- Fuel-driven worker for pySplit; the fuel (length of the scanned list plus
one) makes the recursion structural so that concrete inputs reduce in the
kernel. -/
def pySplitAux (sep : List Char) : Nat → List Char → List Char → List (List Char)
  | 0, _, acc => [acc.reverse]
  | _ + 1, [], acc => [acc.reverse]
  | fuel + 1, c :: rest, acc =>
    if sep.isPrefixOf (c :: rest) then
      acc.reverse :: pySplitAux sep fuel ((c :: rest).drop sep.length) []
    else
      pySplitAux sep fuel rest (c :: acc)

/-- Python str.split(sep) for a non-empty separator. -/
def pySplit (s sep : String) : List String :=
  (pySplitAux sep.data (s.data.length + 1) s.data []).map fun cs => ⟨cs⟩

/-- Fuel-driven worker for pyReplace. -/
def pyReplaceAux (sep repl : List Char) : Nat → List Char → List Char → List Char
  | 0, _, acc => acc.reverse
  | _ + 1, [], acc => acc.reverse
  | fuel + 1, c :: rest, acc =>
    if sep.isPrefixOf (c :: rest) then
      pyReplaceAux sep repl fuel ((c :: rest).drop sep.length) (repl.reverse ++ acc)
    else
      pyReplaceAux sep repl fuel rest (c :: acc)

/-- Python str.replace(sep, repl): every non-overlapping occurrence, left to
right, for a non-empty separator. -/
def pyReplace (s sep repl : String) : String :=
  ⟨pyReplaceAux sep.data repl.data (s.data.length + 1) s.data []⟩

/-- Python `sub in s` substring test. -/
def pyContains (s sub : String) : Bool := (pySplit s sub).length != 1

/-- Wall-clock instant: a calendar day (days since some epoch) and a time of
day within it.  This mirrors what check_rate_limit (app.py:175-217) needs:
datetime.now(), comparison, and replace(hour=0, minute=0, second=0,
microsecond=0). -/
structure DateTime where
  day : Int
  tod : Int

/-- Lexicographic strict order on instants. -/
def DateTime.ltB (a b : DateTime) : Bool :=
  decide (a.day < b.day) || (decide (a.day = b.day) && decide (a.tod < b.tod))

/-- Lexicographic order on instants. -/
def DateTime.leB (a b : DateTime) : Bool :=
  decide (a.day < b.day) || (decide (a.day = b.day) && decide (a.tod ≤ b.tod))

/-- now.replace(hour=0, minute=0, second=0, microsecond=0): local midnight of
the same day (app.py:205). -/
def DateTime.midnight (d : DateTime) : DateTime := ⟨d.day, 0⟩

/-- A row of the search_logs table as read back by check_rate_limit
(client_id, timestamp, success are the only columns it consults). -/
structure LogRow where
  client_id : String
  timestamp : DateTime
  success : Bool

/-- The client settings row consulted by check_rate_limit (app.py:181):
daily_limit, unlimited, unlimited_until. -/
structure ClientSettings where
  daily_limit : Int
  unlimited : Bool
  unlimited_until : Option String

/-- SELECT COUNT(*) FROM search_logs WHERE client_id = ? AND timestamp >= ?
AND success = 1 (app.py:206-209), with ? bound to local midnight today. -/
def count_daily_usage (db : List LogRow) (client_id : String) (today_start : DateTime) : Nat :=
  (db.filter (fun r => r.client_id == client_id && DateTime.leB today_start r.timestamp && r.success)).length

/-- The daily-usage tail of check_rate_limit (app.py:204-217): count todays
successful rows and compare against the daily limit. -/
def check_daily_usage (db : List LogRow) (client_id : String) (now : DateTime)
    (daily_limit : Int) : Bool × String :=
  let daily_usage : Int := count_daily_usage db client_id now.midnight
  if daily_limit ≤ daily_usage then
    (false, "Daily limit exceeded (" ++ toString daily_usage ++ "/" ++ toString daily_limit ++ ")")
  else
    (true, "Usage: " ++ toString daily_usage ++ "/" ++ toString daily_limit)

/-- check_rate_limit (app.py:175-217).  parseIso stands for
datetime.datetime.fromisoformat, returning none when the library call would
raise (the bare except at app.py:201-202 then falls through).  An empty
unlimited_until string is falsy in Python, so it skips the window check. -/
def check_rate_limit (parseIso : String → Option DateTime) (db : List LogRow)
    (client_settings : Option ClientSettings) (now : DateTime) (client_id : String) :
    Bool × String :=
  match client_settings with
  | none => (false, "Client not found")
  | some s =>
    if s.unlimited then (true, "Unlimited access")
    else
      match s.unlimited_until with
      | some u =>
        if u = "" then check_daily_usage db client_id now s.daily_limit
        else
          match parseIso u with
          | some until_date =>
            if DateTime.ltB now until_date then (true, "Unlimited until " ++ u)
            else check_daily_usage db client_id now s.daily_limit
          | none => check_daily_usage db client_id now s.daily_limit
      | none => check_daily_usage db client_id now s.daily_limit

/-- True when the unlimited_until window does not grant access at this
instant: the column is NULL, empty, unparseable, or parsed but not in the
future. -/
def window_inactive (parseIso : String → Option DateTime) (u : Option String)
    (now : DateTime) : Bool :=
  match u with
  | none => true
  | some v =>
    v == "" ||
      (match parseIso v with
       | none => true
       | some d => !(DateTime.ltB now d))

/-- substitute_self_reference (app.py:245-260).  self_subject is the value of
the clients row for this client (none: no row or NULL column; the code also
treats an empty string as unset, since `if result and result[0]` is a
truthiness test).  The ValueError raised by the source carries the message
returned in the error case here. -/
def substitute_self_reference (query : String) (self_subject : Option String) :
    Except String String :=
  if !(pyContains query "@s") then Except.ok query
  else
    match self_subject with
    | some subj =>
      if subj == "" then
        Except.error "Self-reference @s used but no self_subject set. Use \"set self [name]\" command first."
      else Except.ok (pyReplace query "@s" subj)
    | none =>
      Except.error "Self-reference @s used but no self_subject set. Use \"set self [name]\" command first."

/-- data.get(key) over the parsed request payload (a dict). -/
def get_field (data : List (String × JVal)) (key : String) : Option JVal :=
  data.lookup key

/-- raw_query = data.get("query", ""); query = str(raw_query).strip() if
raw_query is not None else "" (app.py:369-370).  The absent-key default ""
strips to "". -/
def extract_query (data : List (String × JVal)) : String :=
  match get_field data "query" with
  | none => ""
  | some JVal.null => ""
  | some v => pyStrip (pyStr v)

/-- The fixed country allow-list (app.py:377). -/
def valid_countries : List String :=
  ["us", "gb", "ca", "au", "de", "fr", "jp", "cn", "in", "br", "mx", "ru", "it", "es", "nl"]

/-- country = str(raw_country).lower() if raw_country is not None else "us",
then reset to "us" when not in the allow-list (app.py:373-379). -/
def normalize_country (raw_country : Option JVal) : String :=
  let country : String :=
    match raw_country with
    | none => "us"
    | some JVal.null => "us"
    | some v => strLower (pyStr v)
  if valid_countries.contains country then country else "us"

/-- state = str(raw_state).lower().strip() if raw_state is not None else ""
(app.py:382-383). -/
def extract_state (data : List (String × JVal)) : String :=
  match get_field data "state" with
  | none => ""
  | some JVal.null => ""
  | some v => pyStrip (strLower (pyStr v))

/-- search_type = data.get("searchType", "general"), reset to "general" when
not a str (app.py:386-388). -/
def extract_search_type (data : List (String × JVal)) : String :=
  match get_field data "searchType" with
  | some (JVal.str s) => s
  | some _ => "general"
  | none => "general"

/-- The search_modifiers dict (app.py:398-444), one f-string per search type,
each interpolating the stripped query. -/
def search_modifiers (query : String) : List (String × String) :=
  [("criminal", "\"" ++ query ++ "\" (arrest OR criminal OR conviction OR mugshot OR court)"),
   ("court", "\"" ++ query ++ "\" (lawsuit OR court case OR civil OR judgment)"),
   ("warrants", "\"" ++ query ++ "\" (warrant OR wanted OR fugitive)"),
   ("bankruptcy", "\"" ++ query ++ "\" (bankruptcy OR chapter 7 OR chapter 11 OR debt)"),
   ("property", "\"" ++ query ++ "\" (property records OR real estate OR deed OR owner)"),
   ("deeds", "\"" ++ query ++ "\" (deed OR mortgage OR property transfer)"),
   ("foreclosure", "\"" ++ query ++ "\" (foreclosure OR tax lien OR sheriff sale)"),
   ("business_property", "\"" ++ query ++ "\" (commercial property OR business real estate)"),
   ("birth", "\"" ++ query ++ "\" (birth certificate OR birth record OR born)"),
   ("death", "\"" ++ query ++ "\" (death certificate OR obituary OR died OR deceased)"),
   ("marriage", "\"" ++ query ++ "\" (marriage certificate OR wedding OR married OR divorce)"),
   ("address", "\"" ++ query ++ "\" (address OR residence OR lived OR home)"),
   ("phone", "\"" ++ query ++ "\" (phone number OR telephone OR contact)"),
   ("licenses", "\"" ++ query ++ "\" (professional license OR certification OR permit)"),
   ("business", "\"" ++ query ++ "\" (business registration OR LLC OR corporation OR company)"),
   ("employment", "\"" ++ query ++ "\" (employment OR job OR work OR employer)"),
   ("education", "\"" ++ query ++ "\" (education OR school OR university OR degree OR alumni)"),
   ("patents", "\"" ++ query ++ "\" (patent OR trademark OR intellectual property)"),
   ("assets", "\"" ++ query ++ "\" (assets OR wealth OR financial OR investments)"),
   ("corporations", "\"" ++ query ++ "\" (corporation OR SEC filing OR executive OR officer)"),
   ("sec", "\"" ++ query ++ "\" (SEC filing OR insider trading OR executive compensation)"),
   ("tax", "\"" ++ query ++ "\" (tax records OR IRS OR tax lien OR assessment)"),
   ("vehicles", "\"" ++ query ++ "\" (vehicle registration OR car OR license plate)"),
   ("drivers", "\"" ++ query ++ "\" (drivers license OR driving record OR DMV OR DUI)"),
   ("aviation", "\"" ++ query ++ "\" (aircraft registration OR pilot license OR FAA)"),
   ("social", "\"" ++ query ++ "\" (Facebook OR Twitter OR Instagram OR LinkedIn OR social media)"),
   ("online", "\"" ++ query ++ "\" (username OR profile OR account OR online)"),
   ("breaches", "\"" ++ query ++ "\" (data breach OR password leak OR hack OR exposed)"),
   ("websites", "\"" ++ query ++ "\" (domain registration OR website owner OR WHOIS)"),
   ("medical", "\"" ++ query ++ "\" (medical license OR doctor OR physician OR MD)"),
   ("sanctions", "\"" ++ query ++ "\" (medical sanctions OR excluded provider OR Medicare fraud)"),
   ("prescribers", "\"" ++ query ++ "\" (DEA prescriber OR controlled substance OR prescription)"),
   ("news_criminal", "\"" ++ query ++ "\" (arrested OR charged OR convicted OR crime news)"),
   ("news_business", "\"" ++ query ++ "\" (CEO OR executive OR business news OR scandal)"),
   ("investigations", "\"" ++ query ++ "\" (investigation OR expose OR corruption OR fraud)"),
   ("media", "\"" ++ query ++ "\" (interview OR news OR media OR press OR appearance)"),
   ("academic", "\"" ++ query ++ "\" (research OR publication OR academic OR scholar)"),
   ("research", "\"" ++ query ++ "\" (research paper OR citation OR study OR journal)"),
   ("grants", "\"" ++ query ++ "\" (research grant OR funding OR NSF OR NIH)"),
   ("university", "\"" ++ query ++ "\" (university OR college OR alumni OR faculty)"),
   ("military", "\"" ++ query ++ "\" (military service OR veteran OR armed forces)"),
   ("immigration", "\"" ++ query ++ "\" (immigration OR visa OR naturalization OR USCIS)"),
   ("political", "\"" ++ query ++ "\" (political contribution OR campaign OR PAC OR lobbying)"),
   ("nonprofit", "\"" ++ query ++ "\" (nonprofit OR charity OR 501c3 OR foundation)"),
   ("voter", "\"" ++ query ++ "\" (voter registration OR voting record OR election)")]

/-- targeted_query = query, replaced by the modifier template when the tag is
a key of search_modifiers (app.py:395-447). -/
def buildTargetedQuery (search_type query : String) : String :=
  match (search_modifiers query).lookup search_type with
  | some t => t
  | none => query

/-- The locality step (app.py:450-453): if state is truthy and the country is
one of us/ca/au, append the state to the targeted query. -/
def append_state (targeted_query st country : String) : String :=
  if st == "" then targeted_query
  else if ["us", "ca", "au"].contains country then targeted_query ++ " " ++ st
  else targeted_query

/-- Python result.get(key, default) where result may not be a dict, in which
case the attribute access raises (modelled as the error case). -/
def pyGet (v : JVal) (key : String) (dflt : JVal) : Except String JVal :=
  match v with
  | .obj kvs => Except.ok ((kvs.lookup key).getD dflt)
  | _ =>
    Except.error ("\x27" ++ pyTypeName v ++ "\x27 object has no attribute \x27get\x27")

/-- A string method call on a value that must be a str (startswith, split);
raises AttributeError otherwise. -/
def pyAsStr (v : JVal) (method : String) : Except String String :=
  match v with
  | .str s => Except.ok s
  | _ =>
    Except.error ("\x27" ++ pyTypeName v ++ "\x27 object has no attribute \x27" ++ method ++ "\x27")

/-- Python iteration `for x in v`: lists yield elements, strings yield
one-character strings, dicts yield their keys; other values raise. -/
def pyIter (v : JVal) : Except String (List JVal) :=
  match v with
  | .list xs => Except.ok xs
  | .str s => Except.ok (s.data.map fun c => JVal.str ⟨[c]⟩)
  | .obj kvs => Except.ok (kvs.map fun p => JVal.str p.1)
  | other => Except.error ("\x27" ++ pyTypeName other ++ "\x27 object is not iterable")

/-- The organic_results item shape (app.py:494-509).  The nested source_info
dict is flattened to source_domain and favicon. -/
structure OrganicItem where
  position : JVal
  title : JVal
  link : JVal
  snippet : JVal
  displayed_link : JVal
  cached_page_link : JVal
  related_pages_link : JVal
  source_domain : String
  favicon : JVal
  rich_snippet : JVal
  sitelinks : JVal
  thumbnail : JVal

/-- result.get("link", "").split("/")[2] if result.get("link",
"").startswith("http") else "" (app.py:503): the condition is evaluated
first; an IndexError escapes when the split has no third segment. -/
def organicSourceDomain (result : JVal) : Except String String := do
  let linkForCond ← pyGet result "link" (.str "")
  let condStr ← pyAsStr linkForCond "startswith"
  if pyStartsWith condStr "http" then do
    let linkForSplit ← pyGet result "link" (.str "")
    let splitStr ← pyAsStr linkForSplit "split"
    match (pySplit splitStr "/").get? 2 with
    | some d => pure d
    | none => Except.error "list index out of range"
  else
    pure ""

/-- Build one organic item (app.py:494-509), field gets in source order. -/
def mkOrganicItem (result : JVal) : Except String OrganicItem := do
  let position ← pyGet result "position" (.num 0)
  let title ← pyGet result "title" (.str "")
  let link ← pyGet result "link" (.str "")
  let snippet ← pyGet result "snippet" (.str "")
  let displayed_link ← pyGet result "displayed_link" (.str "")
  let cached_page_link ← pyGet result "cached_page_link" (.str "")
  let related_pages_link ← pyGet result "related_pages_link" (.str "")
  let source_domain ← organicSourceDomain result
  let favicon ← pyGet result "favicon" .null
  let rich_snippet ← pyGet result "rich_snippet" .null
  let sitelinks ← pyGet result "sitelinks" (.list [])
  let thumbnail ← pyGet result "thumbnail" .null
  pure ⟨position, title, link, snippet, displayed_link, cached_page_link,
    related_pages_link, source_domain, favicon, rich_snippet, sitelinks, thumbnail⟩

/-- The news_results item shape (app.py:515-524). -/
structure NewsItem where
  position : JVal
  title : JVal
  link : JVal
  snippet : JVal
  source : JVal
  date : JVal
  thumbnail : JVal
  stories : JVal

/-- Build one news item (app.py:515-524). -/
def mkNewsItem (result : JVal) : Except String NewsItem := do
  let position ← pyGet result "position" (.num 0)
  let title ← pyGet result "title" (.str "")
  let link ← pyGet result "link" (.str "")
  let snippet ← pyGet result "snippet" (.str "")
  let source ← pyGet result "source" (.str "")
  let date ← pyGet result "date" (.str "")
  let thumbnail ← pyGet result "thumbnail" .null
  let stories ← pyGet result "stories" (.list [])
  pure ⟨position, title, link, snippet, source, date, thumbnail, stories⟩

/-- The images_results item shape (app.py:530-540). -/
structure ImageItem where
  position : JVal
  thumbnail : JVal
  source : JVal
  title : JVal
  link : JVal
  original : JVal
  original_width : JVal
  original_height : JVal
  is_product : JVal

/-- Build one image item (app.py:530-540). -/
def mkImageItem (result : JVal) : Except String ImageItem := do
  let position ← pyGet result "position" (.num 0)
  let thumbnail ← pyGet result "thumbnail" (.str "")
  let source ← pyGet result "source" (.str "")
  let title ← pyGet result "title" (.str "")
  let link ← pyGet result "link" (.str "")
  let original ← pyGet result "original" (.str "")
  let original_width ← pyGet result "original_width" .null
  let original_height ← pyGet result "original_height" .null
  let is_product ← pyGet result "is_product" (.bool false)
  pure ⟨position, thumbnail, source, title, link, original, original_width,
    original_height, is_product⟩

/-- The video_results item shape (app.py:546-555). -/
structure VideoItem where
  position : JVal
  title : JVal
  link : JVal
  displayed_link : JVal
  thumbnail : JVal
  duration : JVal
  platform : JVal
  date : JVal

/-- Build one video item (app.py:546-555). -/
def mkVideoItem (result : JVal) : Except String VideoItem := do
  let position ← pyGet result "position" (.num 0)
  let title ← pyGet result "title" (.str "")
  let link ← pyGet result "link" (.str "")
  let displayed_link ← pyGet result "displayed_link" (.str "")
  let thumbnail ← pyGet result "thumbnail" (.str "")
  let duration ← pyGet result "duration" (.str "")
  let platform ← pyGet result "platform" (.str "")
  let date ← pyGet result "date" (.str "")
  pure ⟨position, title, link, displayed_link, thumbnail, duration, platform, date⟩

/-- The people_also_ask item shape (app.py:561-568). -/
structure PaaItem where
  question : JVal
  snippet : JVal
  title : JVal
  link : JVal
  displayed_link : JVal
  thumbnail : JVal

/-- Build one people-also-ask item (app.py:561-568). -/
def mkPaaItem (result : JVal) : Except String PaaItem := do
  let question ← pyGet result "question" (.str "")
  let snippet ← pyGet result "snippet" (.str "")
  let title ← pyGet result "title" (.str "")
  let link ← pyGet result "link" (.str "")
  let displayed_link ← pyGet result "displayed_link" (.str "")
  let thumbnail ← pyGet result "thumbnail" .null
  pure ⟨question, snippet, title, link, displayed_link, thumbnail⟩

/-- The related_searches item shape (app.py:574-577). -/
structure RelatedItem where
  query : JVal
  link : JVal

/-- Build one related-search item (app.py:574-577). -/
def mkRelatedItem (result : JVal) : Except String RelatedItem := do
  let query ← pyGet result "query" (.str "")
  let link ← pyGet result "link" (.str "")
  pure ⟨query, link⟩

/-- The local_results item shape (app.py:583-609). -/
structure LocalItem where
  position : JVal
  title : JVal
  place_id : JVal
  data_id : JVal
  data_cid : JVal
  reviews_link : JVal
  photos_link : JVal
  gps_coordinates : JVal
  place_id_search : JVal
  provider_id : JVal
  rating : JVal
  reviews : JVal
  price : JVal
  type : JVal
  types : JVal
  type_id : JVal
  address : JVal
  open_state : JVal
  hours : JVal
  operating_hours : JVal
  phone : JVal
  website : JVal
  description : JVal
  service_options : JVal
  thumbnail : JVal

/-- Build one local item (app.py:583-609). -/
def mkLocalItem (result : JVal) : Except String LocalItem := do
  let position ← pyGet result "position" (.num 0)
  let title ← pyGet result "title" (.str "")
  let place_id ← pyGet result "place_id" (.str "")
  let data_id ← pyGet result "data_id" (.str "")
  let data_cid ← pyGet result "data_cid" (.str "")
  let reviews_link ← pyGet result "reviews_link" (.str "")
  let photos_link ← pyGet result "photos_link" (.str "")
  let gps_coordinates ← pyGet result "gps_coordinates" (.obj [])
  let place_id_search ← pyGet result "place_id_search" (.str "")
  let provider_id ← pyGet result "provider_id" (.str "")
  let rating ← pyGet result "rating" .null
  let reviews ← pyGet result "reviews" .null
  let price ← pyGet result "price" (.str "")
  let type ← pyGet result "type" (.str "")
  let types ← pyGet result "types" (.list [])
  let type_id ← pyGet result "type_id" (.str "")
  let address ← pyGet result "address" (.str "")
  let open_state ← pyGet result "open_state" (.str "")
  let hours ← pyGet result "hours" (.str "")
  let operating_hours ← pyGet result "operating_hours" (.obj [])
  let phone ← pyGet result "phone" (.str "")
  let website ← pyGet result "website" (.str "")
  let description ← pyGet result "description" (.str "")
  let service_options ← pyGet result "service_options" (.obj [])
  let thumbnail ← pyGet result "thumbnail" .null
  pure ⟨position, title, place_id, data_id, data_cid, reviews_link, photos_link,
    gps_coordinates, place_id_search, provider_id, rating, reviews, price, type,
    types, type_id, address, open_state, hours, operating_hours, phone, website,
    description, service_options, thumbnail⟩

/-- The shopping_results item shape (app.py:615-630). -/
structure ShoppingItem where
  position : JVal
  title : JVal
  link : JVal
  product_link : JVal
  product_id : JVal
  serpapi_product_api : JVal
  source : JVal
  price : JVal
  extracted_price : JVal
  rating : JVal
  reviews : JVal
  extensions : JVal
  thumbnail : JVal
  delivery : JVal

/-- Build one shopping item (app.py:615-630). -/
def mkShoppingItem (result : JVal) : Except String ShoppingItem := do
  let position ← pyGet result "position" (.num 0)
  let title ← pyGet result "title" (.str "")
  let link ← pyGet result "link" (.str "")
  let product_link ← pyGet result "product_link" (.str "")
  let product_id ← pyGet result "product_id" (.str "")
  let serpapi_product_api ← pyGet result "serpapi_product_api" (.str "")
  let source ← pyGet result "source" (.str "")
  let price ← pyGet result "price" (.str "")
  let extracted_price ← pyGet result "extracted_price" .null
  let rating ← pyGet result "rating" .null
  let reviews ← pyGet result "reviews" .null
  let extensions ← pyGet result "extensions" (.list [])
  let thumbnail ← pyGet result "thumbnail" .null
  let delivery ← pyGet result "delivery" (.str "")
  pure ⟨position, title, link, product_link, product_id, serpapi_product_api,
    source, price, extracted_price, rating, reviews, extensions, thumbnail, delivery⟩

/-- The scholarly_articles item shape (app.py:636-644). -/
structure ScholarlyItem where
  position : JVal
  title : JVal
  link : JVal
  snippet : JVal
  publication_info : JVal
  resources : JVal
  inline_links : JVal

/-- Build one scholarly item (app.py:636-644). -/
def mkScholarlyItem (result : JVal) : Except String ScholarlyItem := do
  let position ← pyGet result "position" (.num 0)
  let title ← pyGet result "title" (.str "")
  let link ← pyGet result "link" (.str "")
  let snippet ← pyGet result "snippet" (.str "")
  let publication_info ← pyGet result "publication_info" (.obj [])
  let resources ← pyGet result "resources" (.list [])
  let inline_links ← pyGet result "inline_links" (.obj [])
  pure ⟨position, title, link, snippet, publication_info, resources, inline_links⟩

/-- The top_stories item shape (app.py:650-658). -/
structure StoryItem where
  position : JVal
  title : JVal
  link : JVal
  snippet : JVal
  date : JVal
  source : JVal
  thumbnail : JVal

/-- Build one top-story item (app.py:650-658). -/
def mkStoryItem (result : JVal) : Except String StoryItem := do
  let position ← pyGet result "position" (.num 0)
  let title ← pyGet result "title" (.str "")
  let link ← pyGet result "link" (.str "")
  let snippet ← pyGet result "snippet" (.str "")
  let date ← pyGet result "date" (.str "")
  let source ← pyGet result "source" (.str "")
  let thumbnail ← pyGet result "thumbnail" .null
  pure ⟨position, title, link, snippet, date, source, thumbnail⟩

/-- One category loop: `if key in search_results: for result in
search_results[key]: items.append(mk result)` (the pattern of
app.py:492-659).  A non-dict document never reaches these loops because the
dict literal at app.py:472-489 raises first, so that case yields []. -/
def processCategory {α : Type} (search_results : JVal) (key : String)
    (mk : JVal → Except String α) : Except String (List α) :=
  match search_results with
  | .obj kvs =>
    match kvs.lookup key with
    | some v => do
      let xs ← pyIter v
      xs.mapM mk
    | none => Except.ok []
  | _ => Except.ok []

/-- The per-request results dict (app.py:472-489), categories normalized. -/
structure Results where
  query : String
  country : String
  search_information : JVal
  organic_results : List OrganicItem
  news_results : List NewsItem
  image_results : List ImageItem
  video_results : List VideoItem
  people_also_ask : List PaaItem
  related_searches : List RelatedItem
  local_results : List LocalItem
  shopping_results : List ShoppingItem
  scholarly_articles : List ScholarlyItem
  knowledge_graph : JVal
  answer_box : JVal
  top_stories : List StoryItem
  raw_data : JVal

/-- The whole normalization of a 200 upstream body (app.py:469-659): the
singleton gets of the results dict literal, then each category loop in
source order.  Any Python exception inside surfaces as the error case (it is
caught by the handler-wide `except Exception`). -/
def buildResults (query country : String) (search_results : JVal) :
    Except String Results := do
  let search_information ← pyGet search_results "search_information" .null
  let knowledge_graph ← pyGet search_results "knowledge_graph" .null
  let answer_box ← pyGet search_results "answer_box" .null
  let organic_results ← processCategory search_results "organic_results" mkOrganicItem
  let news_results ← processCategory search_results "news_results" mkNewsItem
  let image_results ← processCategory search_results "images_results" mkImageItem
  let video_results ← processCategory search_results "video_results" mkVideoItem
  let people_also_ask ← processCategory search_results "people_also_ask" mkPaaItem
  let related_searches ← processCategory search_results "related_searches" mkRelatedItem
  let local_results ← processCategory search_results "local_results" mkLocalItem
  let shopping_results ← processCategory search_results "shopping_results" mkShoppingItem
  let scholarly_articles ← processCategory search_results "scholarly_articles" mkScholarlyItem
  let top_stories ← processCategory search_results "top_stories" mkStoryItem
  pure ⟨query, country, search_information, organic_results, news_results,
    image_results, video_results, people_also_ask, related_searches,
    local_results, shopping_results, scholarly_articles, knowledge_graph,
    answer_box, top_stories, search_results⟩

/-- total_results (app.py:662-669): the eight list categories that are
counted (people_also_ask and related_searches are not). -/
def totalResults (r : Results) : Nat :=
  r.organic_results.length + r.news_results.length + r.image_results.length +
    r.video_results.length + r.local_results.length + r.shopping_results.length +
    r.scholarly_articles.length + r.top_stories.length

/-- One row inserted by log_search (app.py:263-276), minus the DB-assigned id
and timestamp. -/
structure SearchLogEntry where
  ip_address : String
  user_agent : String
  query : String
  country : String
  results_count : Nat
  success : Bool
  error_message : Option String
  client_id : Option String
  search_type : String
  targeted_query : Option String
  st : Option String
  status_code : Nat

/-- log_search (app.py:263-276) with its Python defaults spelled out at every
call site: results_count=0, success=True, error_message=None, client_id=None,
search_type="general", targeted_query=None, state=None, status_code=200. -/
def log_search (ip_address user_agent query country : String) (results_count : Nat)
    (success : Bool) (error_message : Option String) (client_id : Option String)
    (search_type : String) (targeted_query st : Option String) (status_code : Nat) :
    SearchLogEntry :=
  ⟨ip_address, user_agent, query, country, results_count, success, error_message,
    client_id, search_type, targeted_query, st, status_code⟩

/-- The request payload as the handler sees it: either a JSON content type
(raw is the outcome of request.get_json(silent=True, force=True); none also
covers a JSON null body, which Python returns as None), or the form-data
fallback (app.py:329-361). -/
inductive Body where
  | jsonBody (raw : Option JVal)
  | formBody (fields : List (String × String))

/-- The outcome of the single upstream requests.get call (app.py:466). -/
inductive UpstreamOutcome where
  | timeout
  | netError (msg : String)
  | response (status : Nat) (doc : JVal)

/-- The observable outcome of one request to POST /search: HTTP status, rows
appended to search_logs during the request (in insertion order), whether the
upstream call was issued and with which q parameter, and the error string of
the JSON response body when there is one. -/
structure SearchResponse where
  status : Nat
  logs : List SearchLogEntry
  upstream_called : Bool
  upstream_q : Option String
  body_error : Option String

/-- Everything the handler reads from its environment: the resolved client
identity, request metadata, the monthly upstream usage answer (none models
the `error` case of get_serp_usage, which skips the monthly check), the
clients row, the existing log table, the clock, the payload and the upstream
outcome. -/
structure RequestContext where
  client_id : String
  client_ip : String
  user_agent_header : String
  serp_remaining : Option Int
  client_settings : Option ClientSettings
  db : List LogRow
  now : DateTime
  body : Body
  upstream : UpstreamOutcome

/-- The payload validation phase (app.py:324-366): either an early 400
response (log row, HTTP status, response error string) or the parsed dict.
jsonLoads stands for json.loads on a string payload; none covers both a parse
failure and the non-dict ValueError, which the source maps to the same
branch.  All log rows here use the still-initial query="" and country="us"
and log_search defaults (no client id, status_code 200). -/
def parse_body (jsonLoads : String → Option JVal) (ip ua : String) (body : Body) :
    Except (SearchLogEntry × Nat × String) (List (String × JVal)) :=
  match body with
  | .jsonBody raw =>
    match raw with
    | none =>
      Except.error (log_search ip ua "" "us" 0 false (some "Empty JSON payload")
        none "general" none none 200, 400, "Empty or malformed JSON payload")
    | some JVal.null =>
      Except.error (log_search ip ua "" "us" 0 false (some "Empty JSON payload")
        none "general" none none 200, 400, "Empty or malformed JSON payload")
    | some (JVal.str s) =>
      match jsonLoads s with
      | some (JVal.obj kvs) => Except.ok kvs
      | _ =>
        Except.error (log_search ip ua "" "us" 0 false (some "Invalid JSON string format")
          none "general" none none 200, 400, "JSON payload must be a valid object")
    | some (JVal.obj kvs) => Except.ok kvs
    | some (JVal.list _) =>
      Except.error (log_search ip ua "" "us" 0 false (some "JSON array not supported")
        none "general" none none 200, 400, "JSON payload must be an object, not an array")
    | some v =>
      Except.error (log_search ip ua "" "us" 0 false
        (some ("Unsupported JSON type: " ++ pyTypeName v)) none "general" none none 200,
        400, "Unsupported JSON payload type: " ++ pyTypeName v)
  | .formBody fields =>
    match fields with
    | [] =>
      Except.error (log_search ip ua "" "us" 0 false (some "No data provided")
        none "general" none none 200, 400, "No search data provided")
    | _ => Except.ok (fields.map fun p => (p.1, JVal.str p.2))

/-- The tail of the handler from parameter extraction onward
(app.py:368-709): extraction and validation, query targeting, the upstream
call, normalization, and every upstream failure branch.  The success branch
(app.py:671-684) logs the successful search and then evaluates the undefined
name response_data (app.py:679), so it raises NameError, which the
handler-wide `except Exception` (app.py:706-709) logs as a second row and
turns into a 500. -/
def search_validated (ctx : RequestContext) (ip ua : String)
    (data : List (String × JVal)) : SearchResponse :=
  let query := extract_query data
  let country := normalize_country (get_field data "country")
  let st := extract_state data
  let search_type := extract_search_type data
  if pyStrip query == "" then
    { status := 400,
      logs := [log_search ip ua query country 0 false (some "Empty search query")
        none "general" none none 200],
      upstream_called := false, upstream_q := none,
      body_error := some "Search query is required" }
  else
    let targeted_query := append_state (buildTargetedQuery search_type query) st country
    match ctx.upstream with
    | .timeout =>
      { status := 504,
        logs := [log_search ip ua query country 0 false (some "Request timeout")
          none "general" none none 200],
        upstream_called := true, upstream_q := some targeted_query,
        body_error := some "Request timeout. The search service is taking too long to respond." }
    | .netError m =>
      { status := 500,
        logs := [log_search ip ua query country 0 false (some ("Network error: " ++ m))
          none "general" none none 200],
        upstream_called := true, upstream_q := some targeted_query,
        body_error := some ("Network error: " ++ m) }
    | .response 200 doc =>
      match buildResults query country doc with
      | .error e =>
        { status := 500,
          logs := [log_search ip ua query country 0 false (some e)
            none "general" none none 200],
          upstream_called := true, upstream_q := some targeted_query,
          body_error := some e }
      | .ok results =>
        let total := totalResults results
        let logged_query0 := "[" ++ strUpper search_type ++ "] " ++ query
        let logged_query :=
          if st == "" then logged_query0
          else logged_query0 ++ " [" ++ strUpper st ++ "]"
        let success_entry := log_search ip ua logged_query country total true none
          (some ctx.client_id) search_type (some targeted_query) (some st) 200
        let name_error := "name \x27response_data\x27 is not defined"
        let fail_entry := log_search ip ua query country 0 false (some name_error)
          none "general" none none 200
        { status := 500,
          logs := [success_entry, fail_entry],
          upstream_called := true, upstream_q := some targeted_query,
          body_error := some name_error }
    | .response 401 _ =>
      { status := 401,
        logs := [log_search ip ua query country 0 false (some "Invalid SERP API key")
          none "general" none none 200],
        upstream_called := true, upstream_q := some targeted_query,
        body_error := some "Invalid SERP API key. Please check your API credentials." }
    | .response 403 _ =>
      { status := 403,
        logs := [log_search ip ua query country 0 false
          (some "Access denied - insufficient permissions") none "general" none none 200],
        upstream_called := true, upstream_q := some targeted_query,
        body_error := some "Access denied. Your SERP API key may have insufficient permissions." }
    | .response 429 _ =>
      { status := 429,
        logs := [log_search ip ua query country 0 false (some "Rate limit exceeded")
          none "general" none none 200],
        upstream_called := true, upstream_q := some targeted_query,
        body_error := some "Rate limit exceeded. Please try again later." }
    | .response s _ =>
      { status := 500,
        logs := [log_search ip ua query country 0 false
          (some ("SERP API error: " ++ toString s)) none "general" none none 200],
        upstream_called := true, upstream_q := some targeted_query,
        body_error := some ("SERP API error: " ++ toString s) }

/-- Payload parsing followed by the validated tail (app.py:323-366). -/
def search_parse (jsonLoads : String → Option JVal) (ctx : RequestContext)
    (ip ua : String) : SearchResponse :=
  match parse_body jsonLoads ip ua ctx.body with
  | .error (entry, status, msg) =>
    { status := status, logs := [entry], upstream_called := false,
      upstream_q := none, body_error := some msg }
  | .ok data => search_validated ctx ip ua data

/-- The daily rate-limit gate (app.py:307-315) in front of the rest. -/
def search_rate_checked (jsonLoads : String → Option JVal)
    (parseIso : String → Option DateTime) (ctx : RequestContext)
    (ip ua : String) : SearchResponse :=
  match check_rate_limit parseIso ctx.db ctx.client_settings ctx.now ctx.client_id with
  | (allowed, limit_msg) =>
    if allowed then search_parse jsonLoads ctx ip ua
    else
      { status := 429,
        logs := [log_search ip ua "" "us" 0 false (some ("Rate limit: " ++ limit_msg))
          (some ctx.client_id) "general" none none 429],
        upstream_called := false, upstream_q := none,
        body_error := some "Daily search limit exceeded" }

/-- The POST /search handler (app.py:291-709) after client resolution: the
monthly upstream-quota gate (app.py:298-305), the per-client daily gate, the
payload phase and the upstream phase. -/
def search_handler (jsonLoads : String → Option JVal)
    (parseIso : String → Option DateTime) (ctx : RequestContext) : SearchResponse :=
  let ua := pyTake ctx.user_agent_header 500
  let ip := ctx.client_ip
  match ctx.serp_remaining with
  | some remaining =>
    if remaining ≤ 0 then
      { status := 429,
        logs := [log_search ip ua "" "us" 0 false (some "SERP API monthly limit exceeded")
          (some ctx.client_id) "general" none none 429],
        upstream_called := false, upstream_q := none,
        body_error := some "Monthly SERP API limit exceeded" }
    else search_rate_checked jsonLoads parseIso ctx ip ua
  | none => search_rate_checked jsonLoads parseIso ctx ip ua

/-- Keyword suffix of each search_modifiers template: the part after the
quoted query (app.py:398-444), keyed by search type. -/
def modifier_suffixes : List (String × String) :=
  [("criminal", "(arrest OR criminal OR conviction OR mugshot OR court)"),
   ("court", "(lawsuit OR court case OR civil OR judgment)"),
   ("warrants", "(warrant OR wanted OR fugitive)"),
   ("bankruptcy", "(bankruptcy OR chapter 7 OR chapter 11 OR debt)"),
   ("property", "(property records OR real estate OR deed OR owner)"),
   ("deeds", "(deed OR mortgage OR property transfer)"),
   ("foreclosure", "(foreclosure OR tax lien OR sheriff sale)"),
   ("business_property", "(commercial property OR business real estate)"),
   ("birth", "(birth certificate OR birth record OR born)"),
   ("death", "(death certificate OR obituary OR died OR deceased)"),
   ("marriage", "(marriage certificate OR wedding OR married OR divorce)"),
   ("address", "(address OR residence OR lived OR home)"),
   ("phone", "(phone number OR telephone OR contact)"),
   ("licenses", "(professional license OR certification OR permit)"),
   ("business", "(business registration OR LLC OR corporation OR company)"),
   ("employment", "(employment OR job OR work OR employer)"),
   ("education", "(education OR school OR university OR degree OR alumni)"),
   ("patents", "(patent OR trademark OR intellectual property)"),
   ("assets", "(assets OR wealth OR financial OR investments)"),
   ("corporations", "(corporation OR SEC filing OR executive OR officer)"),
   ("sec", "(SEC filing OR insider trading OR executive compensation)"),
   ("tax", "(tax records OR IRS OR tax lien OR assessment)"),
   ("vehicles", "(vehicle registration OR car OR license plate)"),
   ("drivers", "(drivers license OR driving record OR DMV OR DUI)"),
   ("aviation", "(aircraft registration OR pilot license OR FAA)"),
   ("social", "(Facebook OR Twitter OR Instagram OR LinkedIn OR social media)"),
   ("online", "(username OR profile OR account OR online)"),
   ("breaches", "(data breach OR password leak OR hack OR exposed)"),
   ("websites", "(domain registration OR website owner OR WHOIS)"),
   ("medical", "(medical license OR doctor OR physician OR MD)"),
   ("sanctions", "(medical sanctions OR excluded provider OR Medicare fraud)"),
   ("prescribers", "(DEA prescriber OR controlled substance OR prescription)"),
   ("news_criminal", "(arrested OR charged OR convicted OR crime news)"),
   ("news_business", "(CEO OR executive OR business news OR scandal)"),
   ("investigations", "(investigation OR expose OR corruption OR fraud)"),
   ("media", "(interview OR news OR media OR press OR appearance)"),
   ("academic", "(research OR publication OR academic OR scholar)"),
   ("research", "(research paper OR citation OR study OR journal)"),
   ("grants", "(research grant OR funding OR NSF OR NIH)"),
   ("university", "(university OR college OR alumni OR faculty)"),
   ("military", "(military service OR veteran OR armed forces)"),
   ("immigration", "(immigration OR visa OR naturalization OR USCIS)"),
   ("political", "(political contribution OR campaign OR PAC OR lobbying)"),
   ("nonprofit", "(nonprofit OR charity OR 501c3 OR foundation)"),
   ("voter", "(voter registration OR voting record OR election)")]

/-- The set of supported search-type tags, as the fixed keyword suffix each
tag maps to (none: unsupported tag). -/
def modifierSuffix (tag : String) : Option String :=
  modifier_suffixes.lookup tag

/-- The C1 scenario: POST /search with query "Jane Doe", searchType
"criminal", country "us", from a client comfortably under both quotas, and a
stubbed upstream answering 200 with exactly one organic result. -/
def ctxC1 : RequestContext :=
  { client_id := "client-1", client_ip := "203.0.113.5",
    user_agent_header := "curl/8.0", serp_remaining := some 100,
    client_settings := some ⟨10, false, none⟩, db := [], now := ⟨20000, 3600⟩,
    body := Body.jsonBody (some (JVal.obj
      [("query", JVal.str "Jane Doe"), ("searchType", JVal.str "criminal"),
       ("country", JVal.str "us")])),
    upstream := UpstreamOutcome.response 200 (JVal.obj
      [("organic_results", JVal.list [JVal.obj
        [("position", JVal.num 1), ("title", JVal.str "Jane Doe arrested"),
         ("link", JVal.str "https://example.com/jane"),
         ("snippet", JVal.str "court records")]])]) }

/-- A request that reaches the upstream phase (used for C2): general search,
upstream stubbed per scenario. -/
def ctxC2 (upstream : UpstreamOutcome) : RequestContext :=
  { client_id := "client-2", client_ip := "203.0.113.6",
    user_agent_header := "curl/8.0", serp_remaining := some 100,
    client_settings := some ⟨10, false, none⟩, db := [], now := ⟨20000, 3600⟩,
    body := Body.jsonBody (some (JVal.obj [("query", JVal.str "John Roe")])),
    upstream := upstream }

/-- A 200 upstream body with no special keys (normalizes cleanly). -/
def docC2 : JVal := JVal.obj [("search_information", JVal.obj [])]

/-- The C3 scenario: the raw query contains the @s marker; the client has no
self_subject configured; upstream stubbed to 401 so the response shows which
error actually surfaces. -/
def ctxC3 : RequestContext :=
  { client_id := "client-3", client_ip := "203.0.113.7",
    user_agent_header := "curl/8.0", serp_remaining := some 100,
    client_settings := some ⟨10, false, none⟩, db := [], now := ⟨20000, 3600⟩,
    body := Body.jsonBody (some (JVal.obj [("query", JVal.str "find @s records")])),
    upstream := UpstreamOutcome.response 401 JVal.null }

/-- Upstream document whose organic result has the absolute link of the C4
round-trip example. -/
def c4_doc_ok : JVal :=
  JVal.obj [("organic_results", JVal.list [JVal.obj
    [("position", JVal.num 1), ("title", JVal.str "page"),
     ("link", JVal.str "https://example.com/page"), ("snippet", JVal.str "s")]])]

/-- Upstream document whose organic link is the three-character string
"http": startswith("http") holds but split("/") has one segment. -/
def c4_doc_bad : JVal :=
  JVal.obj [("organic_results", JVal.list [JVal.obj [("link", JVal.str "http")]])]

/-- Upstream document whose organic link is the relative path
"httpdocs/a/b": not an absolute URL, yet it starts with "http". -/
def c4_doc_rel : JVal :=
  JVal.obj [("organic_results", JVal.list [JVal.obj [("link", JVal.str "httpdocs/a/b")]])]

/-- The C9 denial scenarios share this context (monthly quota exhausted), a
request body full of non-default values that must not reach the denial log. -/
def ctxC9 : RequestContext :=
  { client_id := "client-9", client_ip := "203.0.113.9",
    user_agent_header := "curl/8.0", serp_remaining := some 0,
    client_settings := some ⟨10, false, none⟩, db := [], now := ⟨20000, 3600⟩,
    body := Body.jsonBody (some (JVal.obj
      [("query", JVal.str "Jane Doe"), ("country", JVal.str "de")])),
    upstream := UpstreamOutcome.timeout }

/-- Splitting a literal space off the template text commutes with appending
the quoted query (used to factor the 45 search_modifiers entries). -/
theorem quoted_factor (q s t : String) (h : "\" " ++ s = t) :
    ("\"" ++ q) ++ t = (("\"" ++ q) ++ "\" ") ++ s := by
  rw [String.append_assoc ("\"" ++ q) "\" " s, h]

/-- Every search_modifiers template is the quoted raw query followed by one
space and the fixed keyword suffix of its tag. -/
theorem search_modifiers_eq_map (q : String) :
    search_modifiers q = modifier_suffixes.map fun p => (p.1, "\"" ++ q ++ "\" " ++ p.2) := by
  simp only [search_modifiers, modifier_suffixes, List.map]
  repeat' refine congrArg₂ List.cons ?_ ?_
  all_goals first
    | rfl
    | exact congrArg (Prod.mk _) (quoted_factor _ _ _ rfl)

/-- Association-list lookup commutes with mapping over the values. -/
theorem lookup_quoted (q k : String) (l : List (String × String)) :
    (l.map fun p => (p.1, "\"" ++ q ++ "\" " ++ p.2)).lookup k
      = (l.lookup k).map fun s => "\"" ++ q ++ "\" " ++ s := by
  induction l with
  | nil => rfl
  | cons hd tl ih =>
    obtain ⟨k0, v0⟩ := hd
    simp only [List.map, List.lookup]
    cases h : k == k0 <;> simp [h, ih]

/-- C1: for the POST /search request with body query "Jane Doe", searchType
"criminal", country "us" and a stubbed upstream answering 200 with exactly
one organic result, the claim expects a 200 response with one organic item
and exactly one successful SearchLogEntry.  The code instead evaluates the
undefined name response_data (app.py:679) after logging the successful row,
so the request returns 500 with the NameError text and a second, failed row
is logged.  The targeted-query part of the claim does hold: the upstream q
parameter is the quoted name plus the criminal keyword set, and the single
successful row records one result. -/
theorem c1_success_path_name_error :
    (search_handler (fun _ => none) (fun _ => none) ctxC1).status = 500
    ∧ (search_handler (fun _ => none) (fun _ => none) ctxC1).upstream_q
        = some "\"Jane Doe\" (arrest OR criminal OR conviction OR mugshot OR court)"
    ∧ ((search_handler (fun _ => none) (fun _ => none) ctxC1).logs.map fun e =>
        (e.query, e.results_count, e.success, e.error_message))
        = [("[CRIMINAL] Jane Doe", 1, true, none),
           ("Jane Doe", 0, false, some "name \x27response_data\x27 is not defined")]
    ∧ (search_handler (fun _ => none) (fun _ => none) ctxC1).body_error
        = some "name \x27response_data\x27 is not defined" :=
  ⟨rfl, rfl, rfl, rfl⟩

/-- C2: the claim says every branch of the handler writes exactly one
SearchLogEntry.  The upstream-200 branch violates it: after the success row
is written, the NameError at app.py:679 sends the request into the
handler-wide except branch, which writes a second, failed row, giving two
rows for one request.  The upstream 401, timeout and network-error branches
do write exactly one row each. -/
theorem c2_success_branch_double_log :
    ((search_handler (fun _ => none) (fun _ => none)
        (ctxC2 (UpstreamOutcome.response 200 docC2))).logs.map fun e => e.success)
      = [true, false]
    ∧ (search_handler (fun _ => none) (fun _ => none)
        (ctxC2 (UpstreamOutcome.response 200 docC2))).logs.length = 2
    ∧ (search_handler (fun _ => none) (fun _ => none)
        (ctxC2 (UpstreamOutcome.response 401 JVal.null))).logs.length = 1
    ∧ (search_handler (fun _ => none) (fun _ => none)
        (ctxC2 UpstreamOutcome.timeout)).logs.length = 1
    ∧ (search_handler (fun _ => none) (fun _ => none)
        (ctxC2 (UpstreamOutcome.netError "boom"))).logs.length = 1 :=
  ⟨rfl, rfl, rfl, rfl, rfl⟩

/-- C3: the claim says a query containing the @s marker either fails with a
distinct error (no self_subject configured) or is substituted before
dispatch.  substitute_self_reference (app.py:245-260) indeed behaves that
way when called, but the search handler never calls it: a request whose
query contains @s reaches the upstream call with the marker intact and no
self-reference error ever surfaces (the body error below is the 401 branch
of the stubbed upstream, not the ValueError). -/
theorem c3_self_reference_not_applied :
    substitute_self_reference "find @s records" none
      = Except.error "Self-reference @s used but no self_subject set. Use \"set self [name]\" command first."
    ∧ substitute_self_reference "find @s records" (some "John Smith")
      = Except.ok "find John Smith records"
    ∧ (search_handler (fun _ => none) (fun _ => none) ctxC3).upstream_called = true
    ∧ (search_handler (fun _ => none) (fun _ => none) ctxC3).upstream_q
        = some "find @s records"
    ∧ (search_handler (fun _ => none) (fun _ => none) ctxC3).body_error
        = some "Invalid SERP API key. Please check your API credentials." :=
  ⟨rfl, rfl, rfl, rfl, rfl⟩

/-- C4 counterexample: the claim says a relative or non-absolute link yields
an empty source domain and the normalizer never raises.  Both parts fail: an
organic link "http" passes the startswith("http") test but split("/") has no
third segment, so normalization raises IndexError (surfaced as the error
case); and the relative link "httpdocs/a/b" yields the non-empty domain "b"
instead of "". -/
theorem c4_normalizer_counterexample :
    buildResults "q" "us" c4_doc_bad = Except.error "list index out of range"
    ∧ ((buildResults "q" "us" c4_doc_rel).toOption.map fun r =>
        r.organic_results.map fun i => i.source_domain) = some ["b"] :=
  ⟨rfl, rfl⟩

/-- C4 amended: an organic link "https://example.com/page" yields domain
"example.com"; every organic result whose link value is a string that does
not start with "http" gets the empty domain; a result with every field
absent normalizes to the type-appropriate defaults; but a string link that
starts with "http" and has no third slash-separated segment makes the
normalizer raise IndexError, which propagates to the handler rather than
being defaulted. -/
theorem c4_normalizer_amended :
    ((buildResults "Jane Doe" "us" c4_doc_ok).toOption.map fun r =>
        r.organic_results.map fun i => i.source_domain) = some ["example.com"]
    ∧ (∀ (kvs : List (String × JVal)) (link : String),
        kvs.lookup "link" = some (JVal.str link) →
        pyStartsWith link "http" = false →
        ∃ item, mkOrganicItem (JVal.obj kvs) = Except.ok item
          ∧ item.source_domain = "")
    ∧ mkOrganicItem (JVal.obj []) = Except.ok
        ⟨JVal.num 0, JVal.str "", JVal.str "", JVal.str "", JVal.str "",
         JVal.str "", JVal.str "", "", JVal.null, JVal.null, JVal.list [], JVal.null⟩
    ∧ (∀ link : String, pyStartsWith link "http" = true →
        (pySplit link "/")[2]? = none →
        mkOrganicItem (JVal.obj [("link", JVal.str link)])
          = Except.error "list index out of range") := by
  refine ⟨rfl, ?_, rfl, ?_⟩
  · intro kvs link hl hs
    simp only [mkOrganicItem, organicSourceDomain, pyGet, pyAsStr, Bind.bind, Except.bind,
      Option.getD, hl, hs, Bool.false_eq_true, if_false, pure, Except.pure]
    exact ⟨_, rfl, rfl⟩
  · intro link hstart hidx
    simp only [mkOrganicItem, organicSourceDomain, pyGet, pyAsStr, Bind.bind, Except.bind,
      Option.getD, hstart, if_true, List.lookup, pure, Except.pure]
    simp [hstart, hidx]

/-- C4 witness: the amended theorem applied to the non-http link
"ftp://x/y" (empty domain) and to the short http link "http" (IndexError). -/
theorem c4_normalizer_witness :
    (∃ item, mkOrganicItem (JVal.obj [("link", JVal.str "ftp://x/y")]) = Except.ok item
      ∧ item.source_domain = "")
    ∧ mkOrganicItem (JVal.obj [("link", JVal.str "http")])
        = Except.error "list index out of range" :=
  ⟨c4_normalizer_amended.2.1 [("link", JVal.str "ftp://x/y")] "ftp://x/y" rfl rfl,
   c4_normalizer_amended.2.2.2 "http" rfl rfl⟩

/-- C5: for every raw query and search-type tag, the targeted query is the
raw query wrapped in double quotes followed by one space and the fixed
keyword suffix of the tag when the tag is supported (a key of
search_modifiers), and the raw query unchanged otherwise.  The suffix
depends only on the tag, so the construction contains the quoted raw query
exactly once. -/
theorem c5_query_targeting (search_type query : String) :
    buildTargetedQuery search_type query =
      match modifierSuffix search_type with
      | some kw => "\"" ++ query ++ "\" " ++ kw
      | none => query := by
  unfold buildTargetedQuery modifierSuffix
  rw [search_modifiers_eq_map, lookup_quoted]
  cases h : modifier_suffixes.lookup search_type <;> simp [h]

/-- C6: for a client that is neither unlimited nor inside an active
unlimited_until window, the rate-limit decision is exactly the daily count
of successful rows with timestamp at or after local midnight compared
against the daily limit: with exactly N such rows (N the limit) the request
is denied, with N-1 it is allowed. -/
theorem c6_daily_quota (parseIso : String → Option DateTime) (db : List LogRow)
    (s : ClientSettings) (now : DateTime) (client_id : String)
    (hunl : s.unlimited = false)
    (hwin : window_inactive parseIso s.unlimited_until now = true) :
    check_rate_limit parseIso db (some s) now client_id
        = check_daily_usage db client_id now s.daily_limit
    ∧ ((count_daily_usage db client_id now.midnight : Int) = s.daily_limit →
        (check_rate_limit parseIso db (some s) now client_id).fst = false)
    ∧ ((count_daily_usage db client_id now.midnight : Int) = s.daily_limit - 1 →
        1 ≤ s.daily_limit →
        (check_rate_limit parseIso db (some s) now client_id).fst = true) := by
  have h0 : check_rate_limit parseIso db (some s) now client_id
      = check_daily_usage db client_id now s.daily_limit := by
    simp only [check_rate_limit]
    rw [hunl]
    simp only [Bool.false_eq_true, if_false]
    cases huu : s.unlimited_until with
    | none => rfl
    | some v =>
      dsimp only
      rw [huu] at hwin
      unfold window_inactive at hwin
      dsimp only at hwin
      by_cases hv : v = ""
      · simp [hv]
      · rw [if_neg hv]
        cases hp : parseIso v with
        | none => rfl
        | some d =>
          rw [hp] at hwin
          simp [hv, hp] at hwin
          simp [hwin]
  refine ⟨h0, ?_, ?_⟩
  · intro hcount
    rw [h0]
    have hle : s.daily_limit ≤ (count_daily_usage db client_id now.midnight : Int) :=
      le_of_eq hcount.symm
    simp [check_daily_usage, hle]
  · intro hcount hpos
    rw [h0]
    have hlt : ¬ s.daily_limit ≤ (count_daily_usage db client_id now.midnight : Int) := by
      rw [hcount]; omega
    simp [check_daily_usage, hlt]

/-- C6 witness: daily limit 2; with two successful rows logged today the
next request is denied, with one it is allowed. -/
theorem c6_daily_quota_witness :
    (check_rate_limit (fun _ => none)
      [⟨"c", ⟨5, 1⟩, true⟩, ⟨"c", ⟨5, 2⟩, true⟩]
      (some ⟨2, false, none⟩) ⟨5, 3⟩ "c").fst = false
    ∧ (check_rate_limit (fun _ => none)
      [⟨"c", ⟨5, 1⟩, true⟩]
      (some ⟨2, false, none⟩) ⟨5, 3⟩ "c").fst = true :=
  ⟨(c6_daily_quota (fun _ => none) _ ⟨2, false, none⟩ ⟨5, 3⟩ "c" rfl rfl).2.1 (by decide),
   (c6_daily_quota (fun _ => none) _ ⟨2, false, none⟩ ⟨5, 3⟩ "c" rfl rfl).2.2 (by decide) (by decide)⟩

/-- C7: with a non-empty locality, a country outside us/ca/au never gets the
locality appended, and a country inside that set makes the targeted query
end with the locality text (it equals the base query plus a space plus the
locality, of which the locality is a suffix). -/
theorem c7_locality_append (targeted st country : String) (h : st ≠ "") :
    (country ∉ (["us", "ca", "au"] : List String) →
      append_state targeted st country = targeted)
    ∧ (country ∈ (["us", "ca", "au"] : List String) →
      append_state targeted st country = targeted ++ " " ++ st
      ∧ st.data <:+ (append_state targeted st country).data) := by
  have hb : (st == "") = false := by simpa using h
  constructor
  · intro hc
    have hcb : (["us", "ca", "au"].contains country) = false := by simpa using hc
    unfold append_state
    rw [hb]
    simp only [Bool.false_eq_true, if_false]
    rw [hcb]
    simp only [Bool.false_eq_true, if_false]
  · intro hc
    have hcb : (["us", "ca", "au"].contains country) = true :=
      List.elem_eq_true_of_mem hc
    have he : append_state targeted st country = targeted ++ " " ++ st := by
      unfold append_state
      rw [hb]
      simp only [Bool.false_eq_true, if_false]
      rw [hcb]
      simp only [if_true]
    refine ⟨he, ?_⟩
    rw [he]
    exact ⟨(targeted ++ " ").data, (String.data_append _ _).symm⟩

/-- C7 witness: locality "texas" is dropped for country "de" and appended at
the end for country "us". -/
theorem c7_locality_append_witness :
    append_state "\"Jane Doe\" (arrest OR criminal OR conviction OR mugshot OR court)" "texas" "de"
      = "\"Jane Doe\" (arrest OR criminal OR conviction OR mugshot OR court)"
    ∧ append_state "\"Jane Doe\" (arrest OR criminal OR conviction OR mugshot OR court)" "texas" "us"
      = "\"Jane Doe\" (arrest OR criminal OR conviction OR mugshot OR court) texas" :=
  ⟨(c7_locality_append _ "texas" "de" (by decide)).1 (by decide),
   ((c7_locality_append _ "texas" "us" (by decide)).2 (by decide)).1⟩

/-- C8 counterexample: the supplied country code "GB" is not in the fixed
allow-list, yet the effective country is "gb", not "us", because the code
lowercases before checking the list. -/
theorem c8_country_counterexample :
    valid_countries.contains "GB" = false
    ∧ normalize_country (some (JVal.str "GB")) = "gb"
    ∧ ("gb" : String) ≠ "us" := by
  refine ⟨rfl, rfl, by decide⟩

/-- C8 amended: for every supplied country value whose lowercased string
form is not in the allow-list, and for an absent country field, the
effective country is "us". -/
theorem c8_country_default (v : JVal)
    (h : valid_countries.contains (strLower (pyStr v)) = false) :
    normalize_country (some v) = "us" ∧ normalize_country none = "us" := by
  refine ⟨?_, rfl⟩
  have hmem : strLower (pyStr v) ∉ valid_countries := by simpa using h
  cases v <;> first | rfl | simp [normalize_country, hmem]

/-- C8 witness: the amended theorem applied to the unknown code "zz". -/
theorem c8_country_default_witness :
    valid_countries.contains (strLower (pyStr (JVal.str "zz"))) = false
    ∧ normalize_country (some (JVal.str "zz")) = "us" :=
  ⟨rfl, (c8_country_default (JVal.str "zz") rfl).1⟩

/-- C9: whenever the request is denied by the monthly upstream-quota gate or
by the per-client daily gate, the handler answers 429 and appends exactly
one log row, whose query is the empty string and whose country is "us",
whatever the request body contained: both gates run before the payload is
parsed. -/
theorem c9_quota_denial_log (jsonLoads : String → Option JVal)
    (parseIso : String → Option DateTime) (ctx : RequestContext)
    (h : (∃ r, ctx.serp_remaining = some r ∧ r ≤ 0) ∨
         ((ctx.serp_remaining = none ∨ ∃ r, ctx.serp_remaining = some r ∧ 0 < r) ∧
          (check_rate_limit parseIso ctx.db ctx.client_settings ctx.now ctx.client_id).fst
            = false)) :
    (search_handler jsonLoads parseIso ctx).status = 429
    ∧ ∃ e, (search_handler jsonLoads parseIso ctx).logs = [e]
        ∧ e.query = "" ∧ e.country = "us" := by
  unfold search_handler
  rcases h with ⟨r, hr, hle⟩ | ⟨hmok, hdeny⟩
  · rw [hr]
    dsimp only
    rw [if_pos hle]
    exact ⟨rfl, _, rfl, rfl, rfl⟩
  · have key : ∀ ip ua, (search_rate_checked jsonLoads parseIso ctx ip ua).status = 429
        ∧ ∃ e, (search_rate_checked jsonLoads parseIso ctx ip ua).logs = [e]
            ∧ e.query = "" ∧ e.country = "us" := by
      intro ip ua
      unfold search_rate_checked
      rcases hc : check_rate_limit parseIso ctx.db ctx.client_settings ctx.now ctx.client_id
        with ⟨allowed, msg⟩
      rw [hc] at hdeny
      simp only at hdeny
      subst hdeny
      dsimp only
      simp only [Bool.false_eq_true, if_false]
      exact ⟨trivial, _, rfl, rfl, rfl⟩
    rcases hmok with hnone | ⟨r, hr, hpos⟩
    · rw [hnone]
      dsimp only
      exact key _ _
    · rw [hr]
      dsimp only
      rw [if_neg (by omega)]
      exact key _ _

/-- C9 witness: a request with a non-empty query and country "de" in its
body, denied by the exhausted monthly quota, logs one row with empty query
and country "us". -/
theorem c9_quota_denial_log_witness :
    (search_handler (fun _ => none) (fun _ => none) ctxC9).status = 429
    ∧ ∃ e, (search_handler (fun _ => none) (fun _ => none) ctxC9).logs = [e]
        ∧ e.query = "" ∧ e.country = "us" :=
  c9_quota_denial_log (fun _ => none) (fun _ => none) ctxC9
    (Or.inl ⟨0, rfl, by decide⟩)

/-- C10: a present but unparseable unlimited_until value is silently ignored
(the bare except at app.py:201-202): the rate limiter, which is total by
construction, falls through to the daily successful-request count against
the daily quota. -/
theorem c10_malformed_unlimited_until (parseIso : String → Option DateTime)
    (db : List LogRow) (s : ClientSettings) (now : DateTime) (client_id : String)
    (u : String) (hunl : s.unlimited = false) (huu : s.unlimited_until = some u)
    (hne : u ≠ "") (hbad : parseIso u = none) :
    check_rate_limit parseIso db (some s) now client_id
      = check_daily_usage db client_id now s.daily_limit := by
  simp only [check_rate_limit]
  rw [hunl, huu]
  simp [hne, hbad]

/-- C10 witness: a client whose unlimited_until column holds the
unparseable string "not-a-date" is judged by the daily count. -/
theorem c10_malformed_unlimited_until_witness :
    check_rate_limit (fun _ => none) [] (some ⟨3, false, some "not-a-date"⟩) ⟨5, 3⟩ "c"
      = check_daily_usage [] "c" ⟨5, 3⟩ 3 :=
  c10_malformed_unlimited_until (fun _ => none) [] ⟨3, false, some "not-a-date"⟩ ⟨5, 3⟩ "c"
    "not-a-date" rfl rfl (by decide) rfl
